import Mathlib

/-!
Shallow embedding of `core/lib/l1_contract_interface/src/i_executor/structures/commit_batch_info.rs`
(zksync-era): the `CommitBatchInfo` ABI encoder for the L1 `commitBatches` call.

Bytes are modelled as `List Nat` (each entry a `u8` value), `U256` values as `Nat`,
and Rust panics (`unwrap` on absent data) as `Option` results (`none` = panic).
External collaborators of this file (the protocol-version classifier, the KZG
commitment service, the commitment serializers and `construct_pubdata`) live in
other crates of the repository; they are modelled from the spec, as marked on
each definition.
-/

/-- Embedding of `zksync_types::ethabi::Token`: the generic tagged ABI value.
Only the variants used by `commit_batch_info.rs` are carried. -/
inductive Token where
  | Uint : Nat → Token
  | FixedBytes : List Nat → Token
  | Bytes : List Nat → Token
  | Array : List Token → Token
  | Tuple : List Token → Token
deriving Repr

/-- Embedding of `zksync_types::pubdata_da::PubdataDA`: the data-availability mode. -/
inductive PubdataDA where
  | Calldata : PubdataDA
  | Blobs : PubdataDA
deriving Repr, DecidableEq

/-- Embedding of `web3::error::Error` (only the variant used here). -/
inductive Web3ApiError where
  | Decoder : String → Web3ApiError
deriving Repr, DecidableEq

/-- Embedding of `web3::contract::Error` (only the variant used here). -/
inductive Web3ContractError where
  | Api : Web3ApiError → Web3ContractError
deriving Repr, DecidableEq

/-- Modelled from the spec: `KzgSettings` (the trusted setup, from
`zkevm_test_harness_1_4_2::kzg`, not under `src/`) together with the external
commitment service it parameterizes. The spec treats the service as a pair of
deterministic pure functions of the setup and a byte payload:
`commitment_for_full_payload` and `commitment_for_chunk`. -/
structure KzgSettings where
  blob_commitment : List Nat → List Nat
  pubdata_commitment : List Nat → List Nat

/-- Modelled from the spec: `KzgInfo` (crate module `i_executor/commit/kzg.rs`,
not under `src/`): the per-payload commitment state built by `KzgInfo::new`. -/
structure KzgInfo where
  settings : KzgSettings
  payload : List Nat

/-- Modelled from the spec: `KzgInfo::new(settings, bytes)`. -/
def KzgInfo.new (settings : KzgSettings) (bytes : List Nat) : KzgInfo :=
  { settings := settings, payload := bytes }

/-- Modelled from the spec: `commitment_for_full_payload(setup, bytes) -> artifact`,
used in Calldata mode; deterministic pure function of its inputs. -/
def KzgInfo.to_blob_commitment (k : KzgInfo) : List Nat :=
  k.settings.blob_commitment k.payload

/-- Modelled from the spec: `commitment_for_chunk(setup, bytes) -> artifact`,
used in Blobs mode; deterministic pure function of its inputs. -/
def KzgInfo.to_pubdata_commitment (k : KzgInfo) : List Nat :=
  k.settings.pubdata_commitment k.payload

/-- Modelled from the spec: the canonical blob size `ZK_SYNC_BYTES_PER_BLOB`
(crate module `i_executor/commit/kzg.rs`, not under `src/`): 4096 field
elements of 31 usable bytes each. -/
def ZK_SYNC_BYTES_PER_BLOB : Nat := 126976

/-- Wire tag `PUBDATA_SOURCE_CALLDATA` for calldata-sourced pubdata. -/
def PUBDATA_SOURCE_CALLDATA : Nat := 0

/-- Wire tag `PUBDATA_SOURCE_BLOBS` for blob-sourced pubdata. -/
def PUBDATA_SOURCE_BLOBS : Nat := 1

/-- Modelled from the spec: `ProtocolVersionId` (`zksync_types`, not under
`src/`) is a totally ordered version tag; modelled as `Nat`. -/
abbrev ProtocolVersionId := Nat

/-- Modelled from the spec: the first ("boojum") layout boundary version. -/
def BOOJUM_BOUNDARY : ProtocolVersionId := 18

/-- Modelled from the spec: the second ("1.4.2") layout boundary version,
strictly later than the boojum boundary. -/
def V1_4_2_BOUNDARY : ProtocolVersionId := 21

/-- Modelled from the spec: `ProtocolVersionId::is_pre_boojum`, a threshold
comparison against the boojum boundary. -/
def ProtocolVersionId.is_pre_boojum (v : ProtocolVersionId) : Bool :=
  v < BOOJUM_BOUNDARY

/-- Modelled from the spec: `ProtocolVersionId::is_pre_1_4_2`, a threshold
comparison against the 1.4.2 boundary. -/
def ProtocolVersionId.is_pre_1_4_2 (v : ProtocolVersionId) : Bool :=
  v < V1_4_2_BOUNDARY

/-- Modelled from the spec: `ProtocolVersionId::last_potentially_undefined`,
the defined "last known" fallback version used when a batch header carries no
protocol version. -/
def ProtocolVersionId.last_potentially_undefined : ProtocolVersionId := 21

/-- Embedding of the fields of `zksync_types` `L1BatchHeader` read by
`commit_batch_info.rs`. Priority-operation records are carried so that the
(external) priority-ops hash is a pure function of the header. -/
structure L1BatchHeader where
  number : Nat
  timestamp : Nat
  l1_tx_count : Nat
  priority_ops_onchain_data : List (List Nat)
  l2_to_l1_logs : List (List Nat)
  l2_to_l1_messages : List (List Nat)
  system_logs : List (List Nat)
  protocol_version : Option ProtocolVersionId
  pubdata_input : Option (List Nat)

/-- Embedding of the fields of `zksync_types` `L1BatchMetadata` read by
`commit_batch_info.rs`. -/
structure L1BatchMetadata where
  rollup_last_leaf_index : Nat
  merkle_root_hash : List Nat
  initial_writes_compressed : Option (List Nat)
  repeated_writes_compressed : Option (List Nat)
  l2_l1_merkle_root : List Nat
  bootloader_initial_content_commitment : Option (List Nat)
  events_queue_commitment : Option (List Nat)

/-- Embedding of `zksync_types` `L1BatchWithMetadata` (the fields read here). -/
structure L1BatchWithMetadata where
  header : L1BatchHeader
  metadata : L1BatchMetadata
  raw_published_factory_deps : List (List Nat)

/-- Modelled from the spec: `L1BatchHeader::priority_ops_onchain_data_hash`
(`zksync_types`, not under `src/`): a pure 32-byte hashing function over the
header's priority-operation records; the concrete hash is out of scope and is
modelled as an abstract deterministic digest of the records. -/
def L1BatchHeader.priority_ops_onchain_data_hash (h : L1BatchHeader) : List Nat :=
  List.replicate 32 ((h.priority_ops_onchain_data.map List.length).foldl (fun a b => (a + b) % 256) 0)

/-- Modelled from the spec: `pre_boojum_serialize_commitments` (`zksync_types`,
not under `src/`): the legacy-format deterministic serialization of L2-to-L1
logs; the concrete byte layout is out of scope, modelled as concatenation. -/
def pre_boojum_serialize_commitments (logs : List (List Nat)) : List Nat :=
  logs.length :: logs.flatten

/-- Modelled from the spec: `serialize_commitments` (`zksync_types`, not under
`src/`): the current-format deterministic serialization of system logs; the
concrete byte layout is out of scope, modelled as concatenation. -/
def serialize_commitments (logs : List (List Nat)) : List Nat :=
  logs.length :: logs.flatten

/-- Modelled from the spec: `L1BatchWithMetadata::construct_pubdata`
(`zksync_types`, not under `src/`): deterministically reconstructs the pubdata
payload from the batch's L2-to-L1 data; the concrete layout is out of scope,
modelled as a deterministic function of those fields. -/
def construct_pubdata (b : L1BatchWithMetadata) : List Nat :=
  b.header.l2_to_l1_logs.flatten ++ b.header.l2_to_l1_messages.flatten ++
    b.raw_published_factory_deps.flatten

/-- Fuel-driven worker for `chunks`: with fuel at least the list length and a
positive chunk size it peels `take n` off the front until the list is empty. -/
def chunksFuel (n : Nat) : Nat → List Nat → List (List Nat)
  | _, [] => []
  | 0, _ :: _ => []
  | fuel + 1, x :: xs => (x :: xs).take n :: chunksFuel n fuel ((x :: xs).drop n)

/-- Embedding of Rust slice `chunks(n)` (as used at `pubdata.chunks(ZK_SYNC_BYTES_PER_BLOB)`):
splits a byte string into consecutive chunks of `n` bytes, the final chunk
possibly shorter; the empty slice yields no chunks. Rust panics on `n = 0`;
this encoder only ever calls it at the positive constant `ZK_SYNC_BYTES_PER_BLOB`. -/
def chunks (n : Nat) (l : List Nat) : List (List Nat) :=
  chunksFuel n l.length l

/-- Embedding of `CommitBatchInfo` from `commit_batch_info.rs`: a borrowing
view over a batch, a DA mode and an optional commitment setup. -/
structure CommitBatchInfo where
  l1_batch_with_metadata : L1BatchWithMetadata
  pubdata_da : PubdataDA
  kzg_settings : Option KzgSettings

/-- Embedding of `CommitBatchInfo::new`. -/
def CommitBatchInfo.new (b : L1BatchWithMetadata) (da : PubdataDA)
    (ks : Option KzgSettings) : CommitBatchInfo :=
  { l1_batch_with_metadata := b, pubdata_da := da, kzg_settings := ks }

/-- Embedding of `CommitBatchInfo::base_tokens` (lines 42–163). The Rust
`unwrap()` calls on absent compressed write sets (pre-boojum branch) or absent
bootloader/events commitments (post-boojum branch) are panics, modelled as
`none`. -/
def CommitBatchInfo.base_tokens (self : CommitBatchInfo) : Option (List Token) :=
  if (self.l1_batch_with_metadata.header.protocol_version.getD
        ProtocolVersionId.last_potentially_undefined).is_pre_boojum then
    match self.l1_batch_with_metadata.metadata.initial_writes_compressed,
        self.l1_batch_with_metadata.metadata.repeated_writes_compressed with
    | some initial_writes, some repeated_writes =>
      some
        [Token.Uint self.l1_batch_with_metadata.header.number,
          Token.Uint self.l1_batch_with_metadata.header.timestamp,
          Token.Uint self.l1_batch_with_metadata.metadata.rollup_last_leaf_index,
          Token.FixedBytes self.l1_batch_with_metadata.metadata.merkle_root_hash,
          Token.Uint self.l1_batch_with_metadata.header.l1_tx_count,
          Token.FixedBytes self.l1_batch_with_metadata.metadata.l2_l1_merkle_root,
          Token.FixedBytes self.l1_batch_with_metadata.header.priority_ops_onchain_data_hash,
          Token.Bytes initial_writes,
          Token.Bytes repeated_writes,
          Token.Bytes (pre_boojum_serialize_commitments
            self.l1_batch_with_metadata.header.l2_to_l1_logs),
          Token.Array (self.l1_batch_with_metadata.header.l2_to_l1_messages.map
            (fun message => Token.Bytes message)),
          Token.Array (self.l1_batch_with_metadata.raw_published_factory_deps.map
            (fun bytecode => Token.Bytes bytecode))]
    | _, _ => none
  else
    match self.l1_batch_with_metadata.metadata.bootloader_initial_content_commitment,
        self.l1_batch_with_metadata.metadata.events_queue_commitment with
    | some bootloader_commitment, some events_commitment =>
      some
        [Token.Uint self.l1_batch_with_metadata.header.number,
          Token.Uint self.l1_batch_with_metadata.header.timestamp,
          Token.Uint self.l1_batch_with_metadata.metadata.rollup_last_leaf_index,
          Token.FixedBytes self.l1_batch_with_metadata.metadata.merkle_root_hash,
          Token.Uint self.l1_batch_with_metadata.header.l1_tx_count,
          Token.FixedBytes self.l1_batch_with_metadata.header.priority_ops_onchain_data_hash,
          Token.FixedBytes bootloader_commitment,
          Token.FixedBytes events_commitment,
          Token.Bytes (serialize_commitments
            self.l1_batch_with_metadata.header.system_logs)]
    | _, _ => none

/-- Embedding of `Tokenizable::from_token` for `CommitBatchInfo` (lines
167–177): decoding is unimplemented and always fails with a decoder error. -/
def CommitBatchInfo.from_token (_token : Token) :
    Except Web3ContractError CommitBatchInfo :=
  Except.error (Web3ContractError.Api (Web3ApiError.Decoder "Not implemented"))

/-- Embedding of `Tokenizable::into_token` for `CommitBatchInfo` (lines
179–244). Rust panics (`unwrap` on an absent metadata field or an absent KZG
setup) are modelled as `none`. -/
def CommitBatchInfo.into_token (self : CommitBatchInfo) : Option Token :=
  match self.base_tokens with
  | none => none
  | some tokens =>
    let protocol_version :=
      self.l1_batch_with_metadata.header.protocol_version.getD
        ProtocolVersionId.last_potentially_undefined
    if protocol_version.is_pre_boojum then
      some (Token.Tuple tokens)
    else if protocol_version.is_pre_1_4_2 then
      some (Token.Tuple (tokens ++
        [Token.Bytes (self.l1_batch_with_metadata.header.pubdata_input.getD
          (construct_pubdata self.l1_batch_with_metadata))]))
    else
      let pubdata := self.l1_batch_with_metadata.header.pubdata_input.getD
        (construct_pubdata self.l1_batch_with_metadata)
      match self.pubdata_da with
      | PubdataDA.Calldata =>
        match self.kzg_settings with
        | none => none
        | some settings =>
          let blob_commitment := (KzgInfo.new settings pubdata).to_blob_commitment
          let result := PUBDATA_SOURCE_CALLDATA :: (pubdata ++ blob_commitment)
          some (Token.Tuple (tokens ++ [Token.Bytes result]))
      | PubdataDA.Blobs =>
        match self.kzg_settings with
        | none => none
        | some settings =>
          let pubdata_commitments := (chunks ZK_SYNC_BYTES_PER_BLOB pubdata).flatMap
            (fun blob => (KzgInfo.new settings blob).to_pubdata_commitment)
          let result := PUBDATA_SOURCE_BLOBS :: pubdata_commitments
          some (Token.Tuple (tokens ++ [Token.Bytes result]))

/-- The batch with its protocol version replaced by the documented fallback
version; used to state the fallback-classification property. -/
def with_fallback_version (b : L1BatchWithMetadata) : L1BatchWithMetadata :=
  { b with header :=
      { b.header with protocol_version := some ProtocolVersionId.last_potentially_undefined } }

/-- A concrete commitment service used to instantiate the theorems on a
specific input. -/
def sampleSettings : KzgSettings :=
  { blob_commitment := fun l => [l.length % 256],
    pubdata_commitment := fun l => [l.length % 256, 7] }

/-- A concrete fully-populated batch (2 L2-to-L1 messages, 1 published
factory dependency, all optional metadata present), parameterized by the
protocol version and the precomputed pubdata, used to instantiate the
theorems on specific inputs. -/
def sampleBatch (v : Option ProtocolVersionId) (pub : Option (List Nat)) :
    L1BatchWithMetadata :=
  { header :=
      { number := 1
        timestamp := 100
        l1_tx_count := 2
        priority_ops_onchain_data := [[1, 2]]
        l2_to_l1_logs := [[3]]
        l2_to_l1_messages := [[4], [5]]
        system_logs := [[6]]
        protocol_version := v
        pubdata_input := pub }
    metadata :=
      { rollup_last_leaf_index := 7
        merkle_root_hash := List.replicate 32 1
        initial_writes_compressed := some [10]
        repeated_writes_compressed := some [11]
        l2_l1_merkle_root := List.replicate 32 2
        bootloader_initial_content_commitment := some (List.replicate 32 3)
        events_queue_commitment := some (List.replicate 32 4) }
    raw_published_factory_deps := [[9]] }

/-! Properties of `chunks`. -/

theorem chunksFuel_nil (n fuel : Nat) : chunksFuel n fuel [] = [] := by
  cases fuel <;> rfl

theorem chunksFuel_congr (n : Nat) (hn : 0 < n) :
    ∀ f₁ f₂ (l : List Nat), l.length ≤ f₁ → l.length ≤ f₂ →
      chunksFuel n f₁ l = chunksFuel n f₂ l := by
  intro f₁
  induction f₁ with
  | zero =>
    intro f₂ l h₁ _
    have hl : l = [] := List.eq_nil_of_length_eq_zero (Nat.le_zero.mp h₁)
    subst hl
    rw [chunksFuel_nil, chunksFuel_nil]
  | succ g ih =>
    intro f₂ l h₁ h₂
    cases l with
    | nil => rw [chunksFuel_nil, chunksFuel_nil]
    | cons x xs =>
      cases f₂ with
      | zero => simp at h₂
      | succ g₂ =>
        have hlen : ((x :: xs).drop n).length = xs.length + 1 - n := by
          simp [List.length_drop]
        have hg : ((x :: xs).drop n).length ≤ g := by
          rw [hlen]
          simp only [List.length_cons] at h₁
          omega
        have hg₂ : ((x :: xs).drop n).length ≤ g₂ := by
          rw [hlen]
          simp only [List.length_cons] at h₂
          omega
        show (x :: xs).take n :: chunksFuel n g ((x :: xs).drop n) =
          (x :: xs).take n :: chunksFuel n g₂ ((x :: xs).drop n)
        rw [ih g₂ _ hg hg₂]

theorem chunks_nil (n : Nat) : chunks n [] = [] := rfl

theorem chunks_cons_eq (n : Nat) (hn : 0 < n) (l : List Nat) (hl : l ≠ []) :
    chunks n l = l.take n :: chunks n (l.drop n) := by
  cases l with
  | nil => exact absurd rfl hl
  | cons x xs =>
    have h₁ : ((x :: xs).drop n).length ≤ xs.length := by
      simp [List.length_drop]
      omega
    show (x :: xs).take n :: chunksFuel n xs.length ((x :: xs).drop n) = _
    rw [chunksFuel_congr n hn xs.length ((x :: xs).drop n).length _ h₁ (Nat.le_refl _)]
    rfl

theorem chunks_of_length_le (n : Nat) (hn : 0 < n) (l : List Nat) (hl : l ≠ [])
    (h : l.length ≤ n) : chunks n l = [l] := by
  rw [chunks_cons_eq n hn l hl, List.take_of_length_le h, List.drop_eq_nil_of_le h,
    chunks_nil]

theorem chunks_flatten_aux (n : Nat) (hn : 0 < n) :
    ∀ k (l : List Nat), l.length ≤ k → (chunks n l).flatten = l := by
  intro k
  induction k with
  | zero =>
    intro l h
    have hl : l = [] := List.eq_nil_of_length_eq_zero (Nat.le_zero.mp h)
    subst hl
    rfl
  | succ k ih =>
    intro l h
    by_cases hl : l = []
    · subst hl; rfl
    · rw [chunks_cons_eq n hn l hl, List.flatten_cons,
        ih (l.drop n) (by simp [List.length_drop]; omega)]
      exact List.take_append_drop n l

theorem chunks_flatten (n : Nat) (hn : 0 < n) (l : List Nat) :
    (chunks n l).flatten = l :=
  chunks_flatten_aux n hn l.length l (Nat.le_refl _)

theorem chunks_getLast_mod_aux (n : Nat) (hn : 0 < n) :
    ∀ k (l : List Nat), l.length ≤ k → l.length % n ≠ 0 →
      ∃ c, (chunks n l).getLast? = some c ∧ c.length = l.length % n := by
  intro k
  induction k with
  | zero =>
    intro l h hr
    have hl : l = [] := List.eq_nil_of_length_eq_zero (Nat.le_zero.mp h)
    subst hl
    simp at hr
  | succ k ih =>
    intro l h hr
    by_cases hl : l = []
    · subst hl; simp at hr
    · by_cases hle : l.length ≤ n
      · refine ⟨l, ?_, ?_⟩
        · rw [chunks_of_length_le n hn l hl hle]
          rfl
        · have hlt : l.length < n := by
            rcases Nat.lt_or_ge l.length n with h' | h'
            · exact h'
            · have : l.length = n := Nat.le_antisymm hle h'
              rw [this] at hr
              simp at hr
          exact (Nat.mod_eq_of_lt hlt).symm
      · have hnle : n ≤ l.length := Nat.le_of_not_le hle
        have hmod : (l.drop n).length % n = l.length % n := by
          rw [List.length_drop]
          exact (Nat.mod_eq_sub_mod hnle).symm
        have hrec := ih (l.drop n)
          (by simp [List.length_drop]; omega)
          (by rw [hmod]; exact hr)
        rcases hrec with ⟨c, hc, hclen⟩
        refine ⟨c, ?_, by rw [hclen, hmod]⟩
        rw [chunks_cons_eq n hn l hl]
        have hne : chunks n (l.drop n) ≠ [] := by
          intro hnil
          rw [hnil] at hc
          simp at hc
        cases hcn : chunks n (l.drop n) with
        | nil => exact absurd hcn hne
        | cons y ys =>
          rw [hcn] at hc
          rw [List.getLast?_cons_cons]
          exact hc

theorem chunks_getLast_mod (n : Nat) (hn : 0 < n) (l : List Nat)
    (hr : l.length % n ≠ 0) :
    ∃ c, (chunks n l).getLast? = some c ∧ c.length = l.length % n :=
  chunks_getLast_mod_aux n hn l.length l (Nat.le_refl _) hr

theorem chunks_two_and_a_half (n : Nat) (hn : 0 < n) (r : Nat) (hr : 0 < r)
    (hrn : r ≤ n) (l : List Nat) (hl : l.length = n + n + r) :
    chunks n l = [l.take n, (l.drop n).take n, (l.drop n).drop n] ∧
      (l.take n).length = n ∧ ((l.drop n).take n).length = n ∧
      ((l.drop n).drop n).length = r := by
  have hne : l ≠ [] := by
    intro h
    rw [h] at hl
    simp at hl
    omega
  have hd1 : (l.drop n).length = n + r := by
    rw [List.length_drop, hl]
    omega
  have hne1 : l.drop n ≠ [] := by
    intro h
    rw [h] at hd1
    simp at hd1
    omega
  have hd2 : ((l.drop n).drop n).length = r := by
    rw [List.length_drop, hd1]
    omega
  have hne2 : (l.drop n).drop n ≠ [] := by
    intro h
    rw [h] at hd2
    simp at hd2
    omega
  refine ⟨?_, ?_, ?_, hd2⟩
  · rw [chunks_cons_eq n hn l hne, chunks_cons_eq n hn (l.drop n) hne1,
      chunks_of_length_le n hn ((l.drop n).drop n) hne2 (by rw [hd2]; exact hrn)]
  · rw [List.length_take, hl]
    omega
  · rw [List.length_take, hd1]
    omega

/-! Shape of `base_tokens` and `into_token` in each version region. -/

theorem base_tokens_pre_boojum_eq (b : L1BatchWithMetadata) (da : PubdataDA)
    (ks : Option KzgSettings) (iw rw : List Nat)
    (hv : (b.header.protocol_version.getD
      ProtocolVersionId.last_potentially_undefined).is_pre_boojum = true)
    (hiw : b.metadata.initial_writes_compressed = some iw)
    (hrw : b.metadata.repeated_writes_compressed = some rw) :
    CommitBatchInfo.base_tokens ⟨b, da, ks⟩ = some
      [Token.Uint b.header.number,
        Token.Uint b.header.timestamp,
        Token.Uint b.metadata.rollup_last_leaf_index,
        Token.FixedBytes b.metadata.merkle_root_hash,
        Token.Uint b.header.l1_tx_count,
        Token.FixedBytes b.metadata.l2_l1_merkle_root,
        Token.FixedBytes b.header.priority_ops_onchain_data_hash,
        Token.Bytes iw,
        Token.Bytes rw,
        Token.Bytes (pre_boojum_serialize_commitments b.header.l2_to_l1_logs),
        Token.Array (b.header.l2_to_l1_messages.map (fun message => Token.Bytes message)),
        Token.Array (b.raw_published_factory_deps.map (fun bytecode => Token.Bytes bytecode))] := by
  simp [CommitBatchInfo.base_tokens, hv, hiw, hrw]

theorem base_tokens_post_boojum_eq (b : L1BatchWithMetadata) (da : PubdataDA)
    (ks : Option KzgSettings) (bc ec : List Nat)
    (hv : (b.header.protocol_version.getD
      ProtocolVersionId.last_potentially_undefined).is_pre_boojum = false)
    (hbc : b.metadata.bootloader_initial_content_commitment = some bc)
    (hec : b.metadata.events_queue_commitment = some ec) :
    CommitBatchInfo.base_tokens ⟨b, da, ks⟩ = some
      [Token.Uint b.header.number,
        Token.Uint b.header.timestamp,
        Token.Uint b.metadata.rollup_last_leaf_index,
        Token.FixedBytes b.metadata.merkle_root_hash,
        Token.Uint b.header.l1_tx_count,
        Token.FixedBytes b.header.priority_ops_onchain_data_hash,
        Token.FixedBytes bc,
        Token.FixedBytes ec,
        Token.Bytes (serialize_commitments b.header.system_logs)] := by
  simp [CommitBatchInfo.base_tokens, hv, hbc, hec]

theorem into_token_pre_boojum_eq (b : L1BatchWithMetadata) (da : PubdataDA)
    (ks : Option KzgSettings) (iw rw : List Nat)
    (hv : (b.header.protocol_version.getD
      ProtocolVersionId.last_potentially_undefined).is_pre_boojum = true)
    (hiw : b.metadata.initial_writes_compressed = some iw)
    (hrw : b.metadata.repeated_writes_compressed = some rw) :
    CommitBatchInfo.into_token ⟨b, da, ks⟩ = some (Token.Tuple
      [Token.Uint b.header.number,
        Token.Uint b.header.timestamp,
        Token.Uint b.metadata.rollup_last_leaf_index,
        Token.FixedBytes b.metadata.merkle_root_hash,
        Token.Uint b.header.l1_tx_count,
        Token.FixedBytes b.metadata.l2_l1_merkle_root,
        Token.FixedBytes b.header.priority_ops_onchain_data_hash,
        Token.Bytes iw,
        Token.Bytes rw,
        Token.Bytes (pre_boojum_serialize_commitments b.header.l2_to_l1_logs),
        Token.Array (b.header.l2_to_l1_messages.map (fun message => Token.Bytes message)),
        Token.Array (b.raw_published_factory_deps.map (fun bytecode => Token.Bytes bytecode))]) := by
  rw [CommitBatchInfo.into_token, base_tokens_pre_boojum_eq b da ks iw rw hv hiw hrw]
  simp [hv]

theorem into_token_mid_eq (b : L1BatchWithMetadata) (da : PubdataDA)
    (ks : Option KzgSettings) (bc ec : List Nat)
    (hv : (b.header.protocol_version.getD
      ProtocolVersionId.last_potentially_undefined).is_pre_boojum = false)
    (hv2 : (b.header.protocol_version.getD
      ProtocolVersionId.last_potentially_undefined).is_pre_1_4_2 = true)
    (hbc : b.metadata.bootloader_initial_content_commitment = some bc)
    (hec : b.metadata.events_queue_commitment = some ec) :
    CommitBatchInfo.into_token ⟨b, da, ks⟩ = some (Token.Tuple
      [Token.Uint b.header.number,
        Token.Uint b.header.timestamp,
        Token.Uint b.metadata.rollup_last_leaf_index,
        Token.FixedBytes b.metadata.merkle_root_hash,
        Token.Uint b.header.l1_tx_count,
        Token.FixedBytes b.header.priority_ops_onchain_data_hash,
        Token.FixedBytes bc,
        Token.FixedBytes ec,
        Token.Bytes (serialize_commitments b.header.system_logs),
        Token.Bytes (b.header.pubdata_input.getD (construct_pubdata b))]) := by
  rw [CommitBatchInfo.into_token, base_tokens_post_boojum_eq b da ks bc ec hv hbc hec]
  simp [hv, hv2]

theorem into_token_calldata_eq (b : L1BatchWithMetadata) (s : KzgSettings)
    (bc ec : List Nat)
    (hv : (b.header.protocol_version.getD
      ProtocolVersionId.last_potentially_undefined).is_pre_boojum = false)
    (hv2 : (b.header.protocol_version.getD
      ProtocolVersionId.last_potentially_undefined).is_pre_1_4_2 = false)
    (hbc : b.metadata.bootloader_initial_content_commitment = some bc)
    (hec : b.metadata.events_queue_commitment = some ec) :
    CommitBatchInfo.into_token ⟨b, PubdataDA.Calldata, some s⟩ = some (Token.Tuple
      [Token.Uint b.header.number,
        Token.Uint b.header.timestamp,
        Token.Uint b.metadata.rollup_last_leaf_index,
        Token.FixedBytes b.metadata.merkle_root_hash,
        Token.Uint b.header.l1_tx_count,
        Token.FixedBytes b.header.priority_ops_onchain_data_hash,
        Token.FixedBytes bc,
        Token.FixedBytes ec,
        Token.Bytes (serialize_commitments b.header.system_logs),
        Token.Bytes (PUBDATA_SOURCE_CALLDATA ::
          (b.header.pubdata_input.getD (construct_pubdata b) ++
            (KzgInfo.new s (b.header.pubdata_input.getD
              (construct_pubdata b))).to_blob_commitment))]) := by
  rw [CommitBatchInfo.into_token,
    base_tokens_post_boojum_eq b PubdataDA.Calldata (some s) bc ec hv hbc hec]
  simp [hv, hv2]

theorem into_token_blobs_eq (b : L1BatchWithMetadata) (s : KzgSettings)
    (bc ec : List Nat)
    (hv : (b.header.protocol_version.getD
      ProtocolVersionId.last_potentially_undefined).is_pre_boojum = false)
    (hv2 : (b.header.protocol_version.getD
      ProtocolVersionId.last_potentially_undefined).is_pre_1_4_2 = false)
    (hbc : b.metadata.bootloader_initial_content_commitment = some bc)
    (hec : b.metadata.events_queue_commitment = some ec) :
    CommitBatchInfo.into_token ⟨b, PubdataDA.Blobs, some s⟩ = some (Token.Tuple
      [Token.Uint b.header.number,
        Token.Uint b.header.timestamp,
        Token.Uint b.metadata.rollup_last_leaf_index,
        Token.FixedBytes b.metadata.merkle_root_hash,
        Token.Uint b.header.l1_tx_count,
        Token.FixedBytes b.header.priority_ops_onchain_data_hash,
        Token.FixedBytes bc,
        Token.FixedBytes ec,
        Token.Bytes (serialize_commitments b.header.system_logs),
        Token.Bytes (PUBDATA_SOURCE_BLOBS ::
          (chunks ZK_SYNC_BYTES_PER_BLOB
            (b.header.pubdata_input.getD (construct_pubdata b))).flatMap
            (fun blob => (KzgInfo.new s blob).to_pubdata_commitment))]) := by
  rw [CommitBatchInfo.into_token,
    base_tokens_post_boojum_eq b PubdataDA.Blobs (some s) bc ec hv hbc hec]
  simp [hv, hv2]

/-! Claims. -/

/-- Claim C1: for every batch at/above the 1.4.2 boundary encoded under
Calldata DA mode with a commitment setup supplied, `into_token` produces a
tuple of exactly 10 fields whose last field is
`[0x00] ++ pubdata ++ commitment_for_full_payload(pubdata)`, where the pubdata
is the precomputed `pubdata_input` if present, else `construct_pubdata`. -/
theorem claim_c1_calldata_last_field (b : L1BatchWithMetadata) (s : KzgSettings)
    (bc ec pd : List Nat)
    (hv : (b.header.protocol_version.getD
      ProtocolVersionId.last_potentially_undefined).is_pre_boojum = false)
    (hv2 : (b.header.protocol_version.getD
      ProtocolVersionId.last_potentially_undefined).is_pre_1_4_2 = false)
    (hbc : b.metadata.bootloader_initial_content_commitment = some bc)
    (hec : b.metadata.events_queue_commitment = some ec)
    (hpd : b.header.pubdata_input.getD (construct_pubdata b) = pd) :
    ∃ ts : List Token,
      CommitBatchInfo.into_token ⟨b, PubdataDA.Calldata, some s⟩ =
        some (Token.Tuple ts) ∧
      ts.length = 10 ∧
      ts.getLast? = some (Token.Bytes (PUBDATA_SOURCE_CALLDATA ::
        (pd ++ (KzgInfo.new s pd).to_blob_commitment))) := by
  subst hpd
  exact ⟨_, into_token_calldata_eq b s bc ec hv hv2 hbc hec, rfl, rfl⟩

/-- Witness for C1 at a concrete post-1.4.2 batch under Calldata mode. -/
theorem claim_c1_witness :
    ((sampleBatch (some 21) (some [7, 8, 9])).header.protocol_version.getD
      ProtocolVersionId.last_potentially_undefined).is_pre_boojum = false ∧
    ((sampleBatch (some 21) (some [7, 8, 9])).header.protocol_version.getD
      ProtocolVersionId.last_potentially_undefined).is_pre_1_4_2 = false ∧
    (sampleBatch (some 21) (some [7, 8, 9])).metadata.bootloader_initial_content_commitment =
      some (List.replicate 32 3) ∧
    (sampleBatch (some 21) (some [7, 8, 9])).metadata.events_queue_commitment =
      some (List.replicate 32 4) ∧
    (sampleBatch (some 21) (some [7, 8, 9])).header.pubdata_input.getD
      (construct_pubdata (sampleBatch (some 21) (some [7, 8, 9]))) = [7, 8, 9] ∧
    ∃ ts : List Token,
      CommitBatchInfo.into_token
        ⟨sampleBatch (some 21) (some [7, 8, 9]), PubdataDA.Calldata, some sampleSettings⟩ =
          some (Token.Tuple ts) ∧
      ts.length = 10 ∧
      ts.getLast? = some (Token.Bytes (PUBDATA_SOURCE_CALLDATA ::
        ([7, 8, 9] ++ (KzgInfo.new sampleSettings [7, 8, 9]).to_blob_commitment))) :=
  ⟨rfl, rfl, rfl, rfl, rfl,
    claim_c1_calldata_last_field (sampleBatch (some 21) (some [7, 8, 9]))
      sampleSettings (List.replicate 32 3) (List.replicate 32 4) [7, 8, 9]
      rfl rfl rfl rfl rfl⟩

/-- Claim C2: for every batch at/above the 1.4.2 boundary encoded under Blobs
DA mode with a commitment setup supplied, `into_token` produces a tuple of
exactly 10 fields whose last field is `[0x01]` followed by the concatenation,
in chunk order, of `commitment_for_chunk(c)` for each chunk of the pubdata
split at the canonical blob size; pubdata of length 2.5 times the canonical
blob size yields exactly 3 chunks (two full, one half) and 3 concatenated
artifacts. -/
theorem claim_c2_blobs_last_field (b : L1BatchWithMetadata) (s : KzgSettings)
    (bc ec pd : List Nat)
    (hv : (b.header.protocol_version.getD
      ProtocolVersionId.last_potentially_undefined).is_pre_boojum = false)
    (hv2 : (b.header.protocol_version.getD
      ProtocolVersionId.last_potentially_undefined).is_pre_1_4_2 = false)
    (hbc : b.metadata.bootloader_initial_content_commitment = some bc)
    (hec : b.metadata.events_queue_commitment = some ec)
    (hpd : b.header.pubdata_input.getD (construct_pubdata b) = pd) :
    ∃ ts : List Token,
      CommitBatchInfo.into_token ⟨b, PubdataDA.Blobs, some s⟩ =
        some (Token.Tuple ts) ∧
      ts.length = 10 ∧
      ts.getLast? = some (Token.Bytes (PUBDATA_SOURCE_BLOBS ::
        (chunks ZK_SYNC_BYTES_PER_BLOB pd).flatMap
          (fun blob => (KzgInfo.new s blob).to_pubdata_commitment))) ∧
      (pd.length = 5 * ZK_SYNC_BYTES_PER_BLOB / 2 →
        ∃ c₁ c₂ c₃ : List Nat,
          chunks ZK_SYNC_BYTES_PER_BLOB pd = [c₁, c₂, c₃] ∧
          c₁.length = ZK_SYNC_BYTES_PER_BLOB ∧
          c₂.length = ZK_SYNC_BYTES_PER_BLOB ∧
          c₃.length = ZK_SYNC_BYTES_PER_BLOB / 2 ∧
          (chunks ZK_SYNC_BYTES_PER_BLOB pd).flatMap
              (fun blob => (KzgInfo.new s blob).to_pubdata_commitment) =
            (KzgInfo.new s c₁).to_pubdata_commitment ++
              ((KzgInfo.new s c₂).to_pubdata_commitment ++
                (KzgInfo.new s c₃).to_pubdata_commitment)) := by
  subst hpd
  refine ⟨_, into_token_blobs_eq b s bc ec hv hv2 hbc hec, rfl, rfl, ?_⟩
  intro hlen
  have hsplit := chunks_two_and_a_half ZK_SYNC_BYTES_PER_BLOB (by decide)
    (ZK_SYNC_BYTES_PER_BLOB / 2) (by decide) (by decide)
    (b.header.pubdata_input.getD (construct_pubdata b)) (by rw [hlen]; decide)
  obtain ⟨hch, h₁, h₂, h₃⟩ := hsplit
  refine ⟨_, _, _, hch, h₁, h₂, h₃, ?_⟩
  rw [hch]
  simp

/-- Witness for C2 at a concrete post-1.4.2 batch under Blobs mode whose
pubdata has length 2.5 times the canonical blob size. -/
theorem claim_c2_witness :
    ((sampleBatch (some 22) (some (List.replicate 317440 0))).header.protocol_version.getD
      ProtocolVersionId.last_potentially_undefined).is_pre_boojum = false ∧
    ((sampleBatch (some 22) (some (List.replicate 317440 0))).header.protocol_version.getD
      ProtocolVersionId.last_potentially_undefined).is_pre_1_4_2 = false ∧
    (sampleBatch (some 22) (some (List.replicate 317440 0))).metadata.bootloader_initial_content_commitment =
      some (List.replicate 32 3) ∧
    (sampleBatch (some 22) (some (List.replicate 317440 0))).metadata.events_queue_commitment =
      some (List.replicate 32 4) ∧
    (sampleBatch (some 22) (some (List.replicate 317440 0))).header.pubdata_input.getD
      (construct_pubdata (sampleBatch (some 22) (some (List.replicate 317440 0)))) =
        List.replicate 317440 0 ∧
    ∃ ts : List Token,
      CommitBatchInfo.into_token
        ⟨sampleBatch (some 22) (some (List.replicate 317440 0)), PubdataDA.Blobs,
          some sampleSettings⟩ = some (Token.Tuple ts) ∧
      ts.length = 10 ∧
      ts.getLast? = some (Token.Bytes (PUBDATA_SOURCE_BLOBS ::
        (chunks ZK_SYNC_BYTES_PER_BLOB (List.replicate 317440 0)).flatMap
          (fun blob => (KzgInfo.new sampleSettings blob).to_pubdata_commitment))) ∧
      ((List.replicate 317440 (0 : Nat)).length = 5 * ZK_SYNC_BYTES_PER_BLOB / 2 →
        ∃ c₁ c₂ c₃ : List Nat,
          chunks ZK_SYNC_BYTES_PER_BLOB (List.replicate 317440 0) = [c₁, c₂, c₃] ∧
          c₁.length = ZK_SYNC_BYTES_PER_BLOB ∧
          c₂.length = ZK_SYNC_BYTES_PER_BLOB ∧
          c₃.length = ZK_SYNC_BYTES_PER_BLOB / 2 ∧
          (chunks ZK_SYNC_BYTES_PER_BLOB (List.replicate 317440 0)).flatMap
              (fun blob => (KzgInfo.new sampleSettings blob).to_pubdata_commitment) =
            (KzgInfo.new sampleSettings c₁).to_pubdata_commitment ++
              ((KzgInfo.new sampleSettings c₂).to_pubdata_commitment ++
                (KzgInfo.new sampleSettings c₃).to_pubdata_commitment)) :=
  ⟨rfl, rfl, rfl, rfl, rfl,
    claim_c2_blobs_last_field (sampleBatch (some 22) (some (List.replicate 317440 0)))
      sampleSettings (List.replicate 32 3) (List.replicate 32 4)
      (List.replicate 317440 0) rfl rfl rfl rfl rfl⟩

/-- Claim C3: for every batch below the boojum boundary, `into_token` produces
a 12-field tuple, independent of the DA mode and of the setup handle (neither
is consulted), and the message-array and published-bytecode-array fields are
the element-wise images of the corresponding metadata collections, preserving
length and original order. -/
theorem claim_c3_pre_boojum_twelve_fields (b : L1BatchWithMetadata)
    (iw rw : List Nat)
    (hv : (b.header.protocol_version.getD
      ProtocolVersionId.last_potentially_undefined).is_pre_boojum = true)
    (hiw : b.metadata.initial_writes_compressed = some iw)
    (hrw : b.metadata.repeated_writes_compressed = some rw) :
    ∃ ts : List Token,
      (∀ (da : PubdataDA) (ks : Option KzgSettings),
        CommitBatchInfo.into_token ⟨b, da, ks⟩ = some (Token.Tuple ts)) ∧
      ts.length = 12 ∧
      ts[10]? = some (Token.Array
        (b.header.l2_to_l1_messages.map (fun message => Token.Bytes message))) ∧
      ts[11]? = some (Token.Array
        (b.raw_published_factory_deps.map (fun bytecode => Token.Bytes bytecode))) ∧
      (b.header.l2_to_l1_messages.map (fun message => Token.Bytes message)).length =
        b.header.l2_to_l1_messages.length ∧
      (b.raw_published_factory_deps.map (fun bytecode => Token.Bytes bytecode)).length =
        b.raw_published_factory_deps.length := by
  exact ⟨_, fun da ks => into_token_pre_boojum_eq b da ks iw rw hv hiw hrw,
    rfl, rfl, rfl, List.length_map _ _, List.length_map _ _⟩

/-- Witness for C3 at a concrete pre-boojum batch with 2 L2-to-L1 messages and
1 published factory dependency; its array fields have length 2 and 1. -/
theorem claim_c3_witness :
    ((sampleBatch (some 17) (some [7, 8, 9])).header.protocol_version.getD
      ProtocolVersionId.last_potentially_undefined).is_pre_boojum = true ∧
    (sampleBatch (some 17) (some [7, 8, 9])).metadata.initial_writes_compressed =
      some [10] ∧
    (sampleBatch (some 17) (some [7, 8, 9])).metadata.repeated_writes_compressed =
      some [11] ∧
    (sampleBatch (some 17) (some [7, 8, 9])).header.l2_to_l1_messages.length = 2 ∧
    (sampleBatch (some 17) (some [7, 8, 9])).raw_published_factory_deps.length = 1 ∧
    ∃ ts : List Token,
      (∀ (da : PubdataDA) (ks : Option KzgSettings),
        CommitBatchInfo.into_token ⟨sampleBatch (some 17) (some [7, 8, 9]), da, ks⟩ =
          some (Token.Tuple ts)) ∧
      ts.length = 12 ∧
      ts[10]? = some (Token.Array
        ((sampleBatch (some 17) (some [7, 8, 9])).header.l2_to_l1_messages.map
          (fun message => Token.Bytes message))) ∧
      ts[11]? = some (Token.Array
        ((sampleBatch (some 17) (some [7, 8, 9])).raw_published_factory_deps.map
          (fun bytecode => Token.Bytes bytecode))) ∧
      ((sampleBatch (some 17) (some [7, 8, 9])).header.l2_to_l1_messages.map
        (fun message => Token.Bytes message)).length =
        (sampleBatch (some 17) (some [7, 8, 9])).header.l2_to_l1_messages.length ∧
      ((sampleBatch (some 17) (some [7, 8, 9])).raw_published_factory_deps.map
        (fun bytecode => Token.Bytes bytecode)).length =
        (sampleBatch (some 17) (some [7, 8, 9])).raw_published_factory_deps.length :=
  ⟨rfl, rfl, rfl, rfl, rfl,
    claim_c3_pre_boojum_twelve_fields (sampleBatch (some 17) (some [7, 8, 9]))
      [10] [11] rfl rfl rfl⟩

/-- Claim C4: for every batch at/above the boojum boundary and below the 1.4.2
boundary, `into_token` produces a 10-field tuple (the 9-field base plus one)
whose last field is the raw pubdata byte string, with no leading mode marker
byte; the pubdata is the precomputed `pubdata_input` if present, else
`construct_pubdata`. -/
theorem claim_c4_mid_raw_pubdata (b : L1BatchWithMetadata) (da : PubdataDA)
    (ks : Option KzgSettings) (bc ec pd : List Nat)
    (hv : (b.header.protocol_version.getD
      ProtocolVersionId.last_potentially_undefined).is_pre_boojum = false)
    (hv2 : (b.header.protocol_version.getD
      ProtocolVersionId.last_potentially_undefined).is_pre_1_4_2 = true)
    (hbc : b.metadata.bootloader_initial_content_commitment = some bc)
    (hec : b.metadata.events_queue_commitment = some ec)
    (hpd : b.header.pubdata_input.getD (construct_pubdata b) = pd) :
    ∃ ts : List Token,
      CommitBatchInfo.into_token ⟨b, da, ks⟩ = some (Token.Tuple ts) ∧
      ts.length = 10 ∧
      ts.getLast? = some (Token.Bytes pd) := by
  subst hpd
  exact ⟨_, into_token_mid_eq b da ks bc ec hv hv2 hbc hec, rfl, rfl⟩

/-- Witness for C4 at a concrete batch of version 19 (boojum, pre-1.4.2),
with no setup supplied. -/
theorem claim_c4_witness :
    ((sampleBatch (some 19) (some [7, 8, 9])).header.protocol_version.getD
      ProtocolVersionId.last_potentially_undefined).is_pre_boojum = false ∧
    ((sampleBatch (some 19) (some [7, 8, 9])).header.protocol_version.getD
      ProtocolVersionId.last_potentially_undefined).is_pre_1_4_2 = true ∧
    (sampleBatch (some 19) (some [7, 8, 9])).metadata.bootloader_initial_content_commitment =
      some (List.replicate 32 3) ∧
    (sampleBatch (some 19) (some [7, 8, 9])).metadata.events_queue_commitment =
      some (List.replicate 32 4) ∧
    (sampleBatch (some 19) (some [7, 8, 9])).header.pubdata_input.getD
      (construct_pubdata (sampleBatch (some 19) (some [7, 8, 9]))) = [7, 8, 9] ∧
    ∃ ts : List Token,
      CommitBatchInfo.into_token
        ⟨sampleBatch (some 19) (some [7, 8, 9]), PubdataDA.Calldata, none⟩ =
          some (Token.Tuple ts) ∧
      ts.length = 10 ∧
      ts.getLast? = some (Token.Bytes [7, 8, 9]) :=
  ⟨rfl, rfl, rfl, rfl, rfl,
    claim_c4_mid_raw_pubdata (sampleBatch (some 19) (some [7, 8, 9]))
      PubdataDA.Calldata none (List.replicate 32 3) (List.replicate 32 4)
      [7, 8, 9] rfl rfl rfl rfl rfl⟩

/-- Counterexample to C5 as stated: a batch of version 21 (at/above the 1.4.2
boundary) whose compressed write sets and bootloader/events commitments are
all present — the claim's stated preconditions — but with no commitment setup
supplied, on which `into_token` hits the `kzg_settings.unwrap()` panic branch
(modelled as `none`). -/
theorem claim_c5_counterexample :
    (sampleBatch (some 21) (some [7, 8, 9])).metadata.initial_writes_compressed.isSome = true ∧
    (sampleBatch (some 21) (some [7, 8, 9])).metadata.repeated_writes_compressed.isSome = true ∧
    (sampleBatch (some 21) (some [7, 8, 9])).metadata.bootloader_initial_content_commitment.isSome = true ∧
    (sampleBatch (some 21) (some [7, 8, 9])).metadata.events_queue_commitment.isSome = true ∧
    CommitBatchInfo.into_token
      ⟨sampleBatch (some 21) (some [7, 8, 9]), PubdataDA.Calldata, none⟩ = none :=
  ⟨rfl, rfl, rfl, rfl, rfl⟩

/-- Claim C5 (amended): under the stated metadata preconditions — compressed
write sets present for pre-boojum batches, bootloader-initial-content and
events-queue commitments present for post-boojum batches — and, additionally,
a commitment setup supplied for batches at/above the 1.4.2 boundary, no
panic/error branch of field assembly, version classification or chunking is
reachable: `into_token` returns a value. -/
theorem claim_c5_no_panic (b : L1BatchWithMetadata) (da : PubdataDA)
    (ks : Option KzgSettings)
    (hpre : (b.header.protocol_version.getD
        ProtocolVersionId.last_potentially_undefined).is_pre_boojum = true →
      b.metadata.initial_writes_compressed.isSome = true ∧
        b.metadata.repeated_writes_compressed.isSome = true)
    (hpost : (b.header.protocol_version.getD
        ProtocolVersionId.last_potentially_undefined).is_pre_boojum = false →
      b.metadata.bootloader_initial_content_commitment.isSome = true ∧
        b.metadata.events_queue_commitment.isSome = true)
    (hkzg : (b.header.protocol_version.getD
        ProtocolVersionId.last_potentially_undefined).is_pre_1_4_2 = false →
      ks.isSome = true) :
    (CommitBatchInfo.into_token ⟨b, da, ks⟩).isSome = true := by
  cases hb : (b.header.protocol_version.getD
      ProtocolVersionId.last_potentially_undefined).is_pre_boojum with
  | true =>
    obtain ⟨hiw, hrw⟩ := hpre hb
    obtain ⟨w₁, hw₁⟩ := Option.isSome_iff_exists.mp hiw
    obtain ⟨w₂, hw₂⟩ := Option.isSome_iff_exists.mp hrw
    rw [into_token_pre_boojum_eq b da ks w₁ w₂ hb hw₁ hw₂]
    rfl
  | false =>
    obtain ⟨hbc, hec⟩ := hpost hb
    obtain ⟨bc, hbc'⟩ := Option.isSome_iff_exists.mp hbc
    obtain ⟨ec, hec'⟩ := Option.isSome_iff_exists.mp hec
    cases h2 : (b.header.protocol_version.getD
        ProtocolVersionId.last_potentially_undefined).is_pre_1_4_2 with
    | true =>
      rw [into_token_mid_eq b da ks bc ec hb h2 hbc' hec']
      rfl
    | false =>
      obtain ⟨s, hs⟩ := Option.isSome_iff_exists.mp (hkzg h2)
      subst hs
      cases da with
      | Calldata =>
        rw [into_token_calldata_eq b s bc ec hb h2 hbc' hec']
        rfl
      | Blobs =>
        rw [into_token_blobs_eq b s bc ec hb h2 hbc' hec']
        rfl

/-- Witness for the amended C5 at a concrete post-1.4.2 batch with all
preconditions satisfied. -/
theorem claim_c5_witness :
    (((sampleBatch (some 22) (some [7, 8, 9])).header.protocol_version.getD
        ProtocolVersionId.last_potentially_undefined).is_pre_boojum = true →
      (sampleBatch (some 22) (some [7, 8, 9])).metadata.initial_writes_compressed.isSome = true ∧
        (sampleBatch (some 22) (some [7, 8, 9])).metadata.repeated_writes_compressed.isSome = true) ∧
    (((sampleBatch (some 22) (some [7, 8, 9])).header.protocol_version.getD
        ProtocolVersionId.last_potentially_undefined).is_pre_boojum = false →
      (sampleBatch (some 22) (some [7, 8, 9])).metadata.bootloader_initial_content_commitment.isSome = true ∧
        (sampleBatch (some 22) (some [7, 8, 9])).metadata.events_queue_commitment.isSome = true) ∧
    (((sampleBatch (some 22) (some [7, 8, 9])).header.protocol_version.getD
        ProtocolVersionId.last_potentially_undefined).is_pre_1_4_2 = false →
      (some sampleSettings).isSome = true) ∧
    (CommitBatchInfo.into_token
      ⟨sampleBatch (some 22) (some [7, 8, 9]), PubdataDA.Blobs, some sampleSettings⟩).isSome = true :=
  ⟨fun _ => ⟨rfl, rfl⟩, fun _ => ⟨rfl, rfl⟩, fun _ => rfl,
    claim_c5_no_panic (sampleBatch (some 22) (some [7, 8, 9])) PubdataDA.Blobs
      (some sampleSettings) (fun _ => ⟨rfl, rfl⟩) (fun _ => ⟨rfl, rfl⟩) (fun _ => rfl)⟩

/-- Claim C6: `from_token` fails on every input token with the
unsupported-direction ("Not implemented" decoder) error; it never succeeds. -/
theorem claim_c6_from_token_always_fails (t : Token) :
    CommitBatchInfo.from_token t = Except.error
      (Web3ContractError.Api (Web3ApiError.Decoder "Not implemented")) :=
  rfl

/-- Claim C7: encoding is deterministic — `into_token` applied to equal
encoder inputs (batch, DA mode, setup, with the commitment service a pure
function of its inputs) yields identical output. -/
theorem claim_c7_deterministic (x y : CommitBatchInfo) (h : x = y) :
    CommitBatchInfo.into_token x = CommitBatchInfo.into_token y := by
  rw [h]

/-- Witness for C7 at a concrete encoder input. -/
theorem claim_c7_witness :
    CommitBatchInfo.new (sampleBatch (some 22) (some [7, 8, 9])) PubdataDA.Blobs
        (some sampleSettings) =
      CommitBatchInfo.new (sampleBatch (some 22) (some [7, 8, 9])) PubdataDA.Blobs
        (some sampleSettings) ∧
    CommitBatchInfo.into_token
        (CommitBatchInfo.new (sampleBatch (some 22) (some [7, 8, 9])) PubdataDA.Blobs
          (some sampleSettings)) =
      CommitBatchInfo.into_token
        (CommitBatchInfo.new (sampleBatch (some 22) (some [7, 8, 9])) PubdataDA.Blobs
          (some sampleSettings)) :=
  ⟨rfl, claim_c7_deterministic _ _ rfl⟩

/-- Claim C8: when the header's protocol version is unset, both `base_tokens`
and `into_token` classify the batch exactly as they would with the defined
"last known" fallback version filled in, and encoding proceeds normally (the
missing version is not an error). -/
theorem claim_c8_version_fallback (b : L1BatchWithMetadata) (da : PubdataDA)
    (ks : Option KzgSettings) (h : b.header.protocol_version = none) :
    CommitBatchInfo.base_tokens ⟨b, da, ks⟩ =
      CommitBatchInfo.base_tokens ⟨with_fallback_version b, da, ks⟩ ∧
    CommitBatchInfo.into_token ⟨b, da, ks⟩ =
      CommitBatchInfo.into_token ⟨with_fallback_version b, da, ks⟩ := by
  constructor <;>
    simp [CommitBatchInfo.base_tokens, CommitBatchInfo.into_token,
      with_fallback_version, h, construct_pubdata,
      L1BatchHeader.priority_ops_onchain_data_hash]

/-- Witness for C8 at a concrete batch with no protocol version. -/
theorem claim_c8_witness :
    (sampleBatch none (some [7, 8, 9])).header.protocol_version = none ∧
    (CommitBatchInfo.base_tokens ⟨sampleBatch none (some [7, 8, 9]), PubdataDA.Calldata,
        some sampleSettings⟩ =
      CommitBatchInfo.base_tokens ⟨with_fallback_version (sampleBatch none (some [7, 8, 9])),
        PubdataDA.Calldata, some sampleSettings⟩ ∧
    CommitBatchInfo.into_token ⟨sampleBatch none (some [7, 8, 9]), PubdataDA.Calldata,
        some sampleSettings⟩ =
      CommitBatchInfo.into_token ⟨with_fallback_version (sampleBatch none (some [7, 8, 9])),
        PubdataDA.Calldata, some sampleSettings⟩) :=
  ⟨rfl, claim_c8_version_fallback (sampleBatch none (some [7, 8, 9]))
    PubdataDA.Calldata (some sampleSettings) rfl⟩

/-- Claim C9: for every batch at/above the boojum boundary and below the 1.4.2
boundary, the output of `into_token` is identical across DA modes and across
presence/absence of the setup handle, and encoding succeeds with no setup:
neither the DA mode nor the setup is consulted in this version range. -/
theorem claim_c9_mid_mode_setup_independent (b : L1BatchWithMetadata)
    (bc ec : List Nat)
    (hv : (b.header.protocol_version.getD
      ProtocolVersionId.last_potentially_undefined).is_pre_boojum = false)
    (hv2 : (b.header.protocol_version.getD
      ProtocolVersionId.last_potentially_undefined).is_pre_1_4_2 = true)
    (hbc : b.metadata.bootloader_initial_content_commitment = some bc)
    (hec : b.metadata.events_queue_commitment = some ec) :
    (∀ (da₁ da₂ : PubdataDA) (ks₁ ks₂ : Option KzgSettings),
      CommitBatchInfo.into_token ⟨b, da₁, ks₁⟩ =
        CommitBatchInfo.into_token ⟨b, da₂, ks₂⟩) ∧
    (CommitBatchInfo.into_token ⟨b, PubdataDA.Blobs, none⟩).isSome = true := by
  constructor
  · intro da₁ da₂ ks₁ ks₂
    rw [into_token_mid_eq b da₁ ks₁ bc ec hv hv2 hbc hec,
      into_token_mid_eq b da₂ ks₂ bc ec hv hv2 hbc hec]
  · rw [into_token_mid_eq b PubdataDA.Blobs none bc ec hv hv2 hbc hec]
    rfl

/-- Witness for C9 at a concrete batch of version 20 (boojum, pre-1.4.2). -/
theorem claim_c9_witness :
    ((sampleBatch (some 20) (some [7, 8, 9])).header.protocol_version.getD
      ProtocolVersionId.last_potentially_undefined).is_pre_boojum = false ∧
    ((sampleBatch (some 20) (some [7, 8, 9])).header.protocol_version.getD
      ProtocolVersionId.last_potentially_undefined).is_pre_1_4_2 = true ∧
    (sampleBatch (some 20) (some [7, 8, 9])).metadata.bootloader_initial_content_commitment =
      some (List.replicate 32 3) ∧
    (sampleBatch (some 20) (some [7, 8, 9])).metadata.events_queue_commitment =
      some (List.replicate 32 4) ∧
    ((∀ (da₁ da₂ : PubdataDA) (ks₁ ks₂ : Option KzgSettings),
      CommitBatchInfo.into_token ⟨sampleBatch (some 20) (some [7, 8, 9]), da₁, ks₁⟩ =
        CommitBatchInfo.into_token ⟨sampleBatch (some 20) (some [7, 8, 9]), da₂, ks₂⟩) ∧
    (CommitBatchInfo.into_token
      ⟨sampleBatch (some 20) (some [7, 8, 9]), PubdataDA.Blobs, none⟩).isSome = true) :=
  ⟨rfl, rfl, rfl, rfl,
    claim_c9_mid_mode_setup_independent (sampleBatch (some 20) (some [7, 8, 9]))
      (List.replicate 32 3) (List.replicate 32 4) rfl rfl rfl rfl⟩

/-- Claim C10: in Blobs mode at/above the 1.4.2 boundary, when the pubdata
length is not a multiple of the canonical blob size, the chunks partition the
pubdata with no zero-padding (their concatenation is exactly the pubdata), the
final chunk has the shorter remainder length, and each chunk is passed as-is
to the per-chunk commitment operation. -/
theorem claim_c10_short_final_chunk (b : L1BatchWithMetadata) (s : KzgSettings)
    (bc ec pd : List Nat)
    (hv : (b.header.protocol_version.getD
      ProtocolVersionId.last_potentially_undefined).is_pre_boojum = false)
    (hv2 : (b.header.protocol_version.getD
      ProtocolVersionId.last_potentially_undefined).is_pre_1_4_2 = false)
    (hbc : b.metadata.bootloader_initial_content_commitment = some bc)
    (hec : b.metadata.events_queue_commitment = some ec)
    (hpd : b.header.pubdata_input.getD (construct_pubdata b) = pd)
    (hrem : pd.length % ZK_SYNC_BYTES_PER_BLOB ≠ 0) :
    ∃ (ts : List Token) (final_chunk : List Nat),
      CommitBatchInfo.into_token ⟨b, PubdataDA.Blobs, some s⟩ =
        some (Token.Tuple ts) ∧
      ts.getLast? = some (Token.Bytes (PUBDATA_SOURCE_BLOBS ::
        (chunks ZK_SYNC_BYTES_PER_BLOB pd).flatMap
          (fun blob => (KzgInfo.new s blob).to_pubdata_commitment))) ∧
      (chunks ZK_SYNC_BYTES_PER_BLOB pd).flatten = pd ∧
      (chunks ZK_SYNC_BYTES_PER_BLOB pd).getLast? = some final_chunk ∧
      final_chunk.length = pd.length % ZK_SYNC_BYTES_PER_BLOB ∧
      final_chunk.length < ZK_SYNC_BYTES_PER_BLOB := by
  subst hpd
  obtain ⟨c, hc, hclen⟩ := chunks_getLast_mod ZK_SYNC_BYTES_PER_BLOB (by decide)
    (b.header.pubdata_input.getD (construct_pubdata b)) hrem
  refine ⟨_, c, into_token_blobs_eq b s bc ec hv hv2 hbc hec, rfl,
    chunks_flatten ZK_SYNC_BYTES_PER_BLOB (by decide) _, hc, hclen, ?_⟩
  rw [hclen]
  exact Nat.mod_lt _ (by decide)

/-- Witness for C10 at a concrete batch whose pubdata is 3 bytes long (not a
multiple of the canonical blob size). -/
theorem claim_c10_witness :
    ((sampleBatch (some 21) (some [7, 8, 9])).header.protocol_version.getD
      ProtocolVersionId.last_potentially_undefined).is_pre_boojum = false ∧
    ((sampleBatch (some 21) (some [7, 8, 9])).header.protocol_version.getD
      ProtocolVersionId.last_potentially_undefined).is_pre_1_4_2 = false ∧
    (sampleBatch (some 21) (some [7, 8, 9])).metadata.bootloader_initial_content_commitment =
      some (List.replicate 32 3) ∧
    (sampleBatch (some 21) (some [7, 8, 9])).metadata.events_queue_commitment =
      some (List.replicate 32 4) ∧
    (sampleBatch (some 21) (some [7, 8, 9])).header.pubdata_input.getD
      (construct_pubdata (sampleBatch (some 21) (some [7, 8, 9]))) = [7, 8, 9] ∧
    ([7, 8, 9] : List Nat).length % ZK_SYNC_BYTES_PER_BLOB ≠ 0 ∧
    ∃ (ts : List Token) (final_chunk : List Nat),
      CommitBatchInfo.into_token
        ⟨sampleBatch (some 21) (some [7, 8, 9]), PubdataDA.Blobs, some sampleSettings⟩ =
          some (Token.Tuple ts) ∧
      ts.getLast? = some (Token.Bytes (PUBDATA_SOURCE_BLOBS ::
        (chunks ZK_SYNC_BYTES_PER_BLOB [7, 8, 9]).flatMap
          (fun blob => (KzgInfo.new sampleSettings blob).to_pubdata_commitment))) ∧
      (chunks ZK_SYNC_BYTES_PER_BLOB [7, 8, 9]).flatten = [7, 8, 9] ∧
      (chunks ZK_SYNC_BYTES_PER_BLOB [7, 8, 9]).getLast? = some final_chunk ∧
      final_chunk.length = ([7, 8, 9] : List Nat).length % ZK_SYNC_BYTES_PER_BLOB ∧
      final_chunk.length < ZK_SYNC_BYTES_PER_BLOB :=
  ⟨rfl, rfl, rfl, rfl, rfl, by decide,
    claim_c10_short_final_chunk (sampleBatch (some 21) (some [7, 8, 9]))
      sampleSettings (List.replicate 32 3) (List.replicate 32 4) [7, 8, 9]
      rfl rfl rfl rfl rfl (by decide)⟩
